import Mathlib

/-!
Verification of the point-cloud grasp-registration pipeline in
`src/grasping_demo/src/grasping_demo/pcd_registration.py`.

The embedding models:
* rigid transforms as 4x4 real matrices (`Mat4`), point clouds as lists of
  points carrying an optional normal and an optional color;
* Python object mutation through a small heap (`Heap`): Open3D operations
  that mutate a cloud in place (`transform`, `paint_uniform_color`,
  `estimate_normals`) are heap writes at the cloud's reference, operations
  that return a new cloud (`voxel_down_sample`, `crop`, `deepcopy`) are
  heap allocations;
* the external geometry library (Open3D) as a record of total functions
  (`GeometryLib`): the repository only composes these calls, so their
  internal behaviour is a parameter of the development;
* the quaternion extraction `quaternion.from_rotation_matrix` of the
  numpy-quaternion dependency by its explicit branch for rotation matrices
  (Shepperd's method: pick the largest of the three diagonal entries and
  the trace, build the corresponding un-normalized quaternion, then divide
  by its Euclidean norm), with numpy's argmax first-maximum tie-break;
* the spec's error taxonomy as `RegError`; the source performs no
  validation and raises none of these errors, so the `..._checked` views
  of the repository functions always return `Except.ok`.
-/

namespace PcdRegistration

noncomputable section

/-- A 4x4 homogeneous transformation matrix (numpy array of shape (4,4)). -/
abbrev Mat4 := Matrix (Fin 4) (Fin 4) ℝ

/-- A 3x3 rotation block. -/
abbrev Mat3 := Matrix (Fin 3) (Fin 3) ℝ

/-- A 3-dimensional real vector. -/
abbrev Vec3 := Fin 3 → ℝ

/-- One point of a cloud: a position, an optional surface normal, an
optional color, mirroring Open3D's point/normal/color arrays. -/
structure Point where
  pos : Vec3
  normal : Option Vec3
  color : Option Vec3

/-- A point cloud, the value stored in one Open3D `PointCloud` object. -/
abbrev PointCloud := List Point

/-- The rotation block `M[:-1, :-1]` of a homogeneous matrix. -/
def rotBlock (M : Mat4) : Mat3 :=
  !![M 0 0, M 0 1, M 0 2; M 1 0, M 1 1, M 1 2; M 2 0, M 2 1, M 2 2]

/-- The translation column `M[:-1, -1]` of a homogeneous matrix. -/
def transVec (M : Mat4) : Vec3 :=
  ![M 0 3, M 1 3, M 2 3]

/-- Action of a homogeneous matrix on a 3D position, as Open3D's
`PointCloud.transform` applies it: rotate by the upper 3x3 block and add
the translation column. -/
def applyAffine (M : Mat4) (p : Vec3) : Vec3 :=
  ![M 0 0 * p 0 + M 0 1 * p 1 + M 0 2 * p 2 + M 0 3,
    M 1 0 * p 0 + M 1 1 * p 1 + M 1 2 * p 2 + M 1 3,
    M 2 0 * p 0 + M 2 1 * p 1 + M 2 2 * p 2 + M 2 3]

/-- Action of the rotation block alone, used for normals (no translation). -/
def applyLinear (M : Mat4) (n : Vec3) : Vec3 :=
  ![M 0 0 * n 0 + M 0 1 * n 1 + M 0 2 * n 2,
    M 1 0 * n 0 + M 1 1 * n 1 + M 1 2 * n 2,
    M 2 0 * n 0 + M 2 1 * n 1 + M 2 2 * n 2]

/-- In-place `PointCloud.transform(M)`: positions move affinely, normals
rotate, colors are untouched. -/
def transformPoint (M : Mat4) (pt : Point) : Point :=
  { pos := applyAffine M pt.pos, normal := Option.map (applyLinear M) pt.normal,
    color := pt.color }

/-- Value-level effect of `PointCloud.transform(M)`. -/
def transformCloud (M : Mat4) (pcd : PointCloud) : PointCloud :=
  pcd.map (transformPoint M)

/-- Value-level effect of `PointCloud.paint_uniform_color(c)`. -/
def paintUniformColor (c : Vec3) (pcd : PointCloud) : PointCloud :=
  pcd.map fun pt => { pt with color := some c }

/-- An Open3D `OrientedBoundingBox`: rotation, center and full extents.
The box loaded at module init from `workspace_bounding_box_array_in_base.npy`
is an opaque calibration input, so its parameters are free. -/
structure OrientedBoundingBox where
  R : Mat3
  center : Vec3
  extent : Vec3

/-- Membership test used by Open3D's box cropping: the displacement from
the center, projected on each box axis, lies within half of the extent. -/
def inBox (box : OrientedBoundingBox) (p : Vec3) : Prop :=
  ∀ i : Fin 3,
    |(p 0 - box.center 0) * box.R 0 i + (p 1 - box.center 1) * box.R 1 i +
      (p 2 - box.center 2) * box.R 2 i| ≤ box.extent i / 2

open Classical in
/-- Open3D `PointCloud.crop(box)`: returns a NEW cloud keeping the points
inside the box; it does not mutate its receiver. -/
def crop (box : OrientedBoundingBox) : PointCloud → PointCloud
  | [] => []
  | pt :: rest => if inBox box pt.pos then pt :: crop box rest else crop box rest

/-- A scalar-first quaternion (w, x, y, z), the layout of
`quaternion.as_float_array`. -/
structure Quat where
  w : ℝ
  x : ℝ
  y : ℝ
  z : ℝ

/-- The squared Euclidean norm of a quaternion's four components. -/
def Quat.normSq (q : Quat) : ℝ := q.w ^ 2 + q.x ^ 2 + q.y ^ 2 + q.z ^ 2

/-- The un-normalized quaternion built by numpy-quaternion's
`from_rotation_matrix` (Shepperd branch): numpy's `argmax` over the three
diagonal entries and the trace picks the FIRST maximum, and the branch
fills the four components from the corresponding row/column sums. -/
def fromRotationMatrixPre (R : Mat3) : Quat :=
  let d0 := R 0 0
  let d1 := R 1 1
  let d2 := R 2 2
  let t := d0 + d1 + d2
  if d0 ≥ d1 ∧ d0 ≥ d2 ∧ d0 ≥ t then
    ⟨R 2 1 - R 1 2, 1 + d0 - d1 - d2, R 0 1 + R 1 0, R 0 2 + R 2 0⟩
  else if d1 ≥ d2 ∧ d1 ≥ t then
    ⟨R 0 2 - R 2 0, R 1 0 + R 0 1, 1 + d1 - d0 - d2, R 1 2 + R 2 1⟩
  else if d2 ≥ t then
    ⟨R 1 0 - R 0 1, R 2 0 + R 0 2, R 2 1 + R 1 2, 1 + d2 - d0 - d1⟩
  else
    ⟨1 + t, R 2 1 - R 1 2, R 0 2 - R 2 0, R 1 0 - R 0 1⟩

/-- `quaternion.from_rotation_matrix`: the un-normalized branch result
divided by its Euclidean norm (the source comments at line 112 that the
result "is already normalized"). -/
def from_rotation_matrix (R : Mat3) : Quat :=
  let q := fromRotationMatrixPre R
  let n := Real.sqrt q.normSq
  ⟨q.w / n, q.x / n, q.y / n, q.z / n⟩

/-- A rotation block is orthonormal when its transpose is its inverse. -/
def orthonormal (R : Mat3) : Prop := R.transpose * R = 1

/-- The last row of a homogeneous rigid transform is (0, 0, 0, 1). -/
def isAffineTransform (M : Mat4) : Prop :=
  M 3 0 = 0 ∧ M 3 1 = 0 ∧ M 3 2 = 0 ∧ M 3 3 = 1

/-- A store of Python point-cloud objects; a reference is an index.
In-place Open3D calls are writes, copies and cloud-returning calls are
allocations at the end of the store. -/
abbrev Heap := List PointCloud

/-- Dereference a cloud object. -/
def Heap.read (h : Heap) (r : ℕ) : PointCloud := List.getD h r []

/-- In-place mutation of the object at `r`. -/
def Heap.write (h : Heap) (r : ℕ) (v : PointCloud) : Heap := List.set h r v

/-- Allocation of a fresh cloud object, returning the new store and the
fresh reference. -/
def Heap.alloc (h : Heap) (v : PointCloud) : Heap × ℕ := (h ++ [v], h.length)

/-- An FPFH feature descriptor set (`open3d.registration.Feature`): one
fixed-length real vector per downsampled point. -/
abbrev Feature := List (List ℝ)

/-- An `open3d.registration.RegistrationResult`. -/
structure RegistrationResult where
  transformation : Mat4
  fitness : ℝ
  inlier_rmse : ℝ

/-- The Open3D operations the module calls. They are external library
capabilities (the repository only composes them), so they are parameters
of the development; each is a total function on cloud values, which is
faithful: none of these calls raises for the inputs the module passes
(in particular they accept arbitrarily small clouds and empty feature
sets without raising). -/
structure GeometryLib where
  voxel_down_sample : ℝ → PointCloud → PointCloud
  estimate_normals : ℝ → ℕ → PointCloud → PointCloud
  compute_fpfh_feature : ℝ → ℕ → PointCloud → Feature
  registration_fast_based_on_feature_matching :
    PointCloud → PointCloud → Feature → Feature → ℝ → RegistrationResult
  registration_icp : PointCloud → PointCloud → ℝ → Mat4 → RegistrationResult

/-- The observable side effects of the module's calls. -/
inductive Effect where
  | printInfo (msg : String)
  | drawGeometries (windowName : String)

/-- The spec's error taxonomy (spec section 7). The source raises none of
these: the `..._checked` views below lift the repository functions into
this error channel, and their outcome is always `Except.ok`. -/
inductive RegError where
  | InsufficientPoints
  | DegenerateNeighborhood
  | InsufficientCorrespondences
  | RegistrationDiverged
  | InvalidTransform

/-- A `geometry_msgs.msg.PoseStamped`, flattened to the fields the module
touches: `header.frame_id`, `pose.position`, `pose.orientation`. -/
structure PoseStamped where
  frame_id : String
  position : Vec3
  orientation : Quat

/-- `PoseStamped()`: ROS message default construction zero-initializes
every numeric field and leaves `header.frame_id` as the empty string. -/
def poseStampedDefault : PoseStamped :=
  { frame_id := "", position := ![0, 0, 0], orientation := ⟨0, 0, 0, 0⟩ }

/-- Default registration parameters, lines 29-33 (unit: meter). -/
def VOXEL_SIZE : ℝ := 0.005

/-- Normal-estimation search radius, line 30. -/
def RADIUS_NORMAL : ℝ := 0.005

/-- FPFH feature search radius, line 31. -/
def RADIUS_FEATURE : ℝ := 0.03

/-- Fast-global-registration correspondence distance, line 32. -/
def GLOBAL_DISTANCE_THRESHOLD : ℝ := 0.2

/-- ICP refinement correspondence distance, line 33. -/
def ICP_REFINE_DISTANCE_THRESHOLD : ℝ := 0.002

/-- Lines 36-42, `preprocess_point_cloud(pcd, ...)`:
`voxel_down_sample` returns a fresh downsampled cloud (allocation),
`estimate_normals` mutates that fresh cloud in place (write at the fresh
reference), `compute_fpfh_feature` returns a descriptor value. The input
cloud `pcd` is only read. The source performs no size validation, so the
call returns for every input cloud. Returns (heap, `pcd_down`, `pcd_fpfh`). -/
def preprocess_point_cloud (G : GeometryLib) (h : Heap) (pcd : ℕ)
    (voxel_size radius_normal radius_feature : ℝ) : Heap × ℕ × Feature :=
  let a := Heap.alloc h (G.voxel_down_sample voxel_size (Heap.read h pcd))
  let h1 := a.1
  let pcd_down := a.2
  let h2 := Heap.write h1 pcd_down
    (G.estimate_normals radius_normal 100 (Heap.read h1 pcd_down))
  let pcd_fpfh := G.compute_fpfh_feature radius_feature 200 (Heap.read h2 pcd_down)
  (h2, pcd_down, pcd_fpfh)

/-- `preprocess_point_cloud` seen through the spec's error channel: the
body contains no validation and no raise, so the lifted outcome is always
`Except.ok` of the returned pair. -/
def preprocess_point_cloud_checked (G : GeometryLib) (h : Heap) (pcd : ℕ)
    (voxel_size radius_normal radius_feature : ℝ) :
    Except RegError (ℕ × Feature) :=
  Except.ok (preprocess_point_cloud G h pcd voxel_size radius_normal radius_feature).2

/-- Lines 45-55, `execute_fast_global_registration(...)`: prints an info
line, then returns the library's fast-global-registration result on the
dereferenced clouds. No correspondence-count validation exists. -/
def execute_fast_global_registration (G : GeometryLib) (h : Heap)
    (source_down target_down : ℕ) (source_fpfh target_fpfh : Feature)
    (distance_threshold : ℝ) : List Effect × RegistrationResult :=
  ([Effect.printInfo "Fast global registration with fpfh features"],
   G.registration_fast_based_on_feature_matching (Heap.read h source_down)
     (Heap.read h target_down) source_fpfh target_fpfh distance_threshold)

/-- `execute_fast_global_registration` seen through the spec's error
channel: the body contains no validation and no raise, so the lifted
outcome is always `Except.ok` of the library result. -/
def execute_fast_global_registration_checked (G : GeometryLib) (h : Heap)
    (source_down target_down : ℕ) (source_fpfh target_fpfh : Feature)
    (distance_threshold : ℝ) : Except RegError RegistrationResult :=
  Except.ok (execute_fast_global_registration G h source_down target_down
    source_fpfh target_fpfh distance_threshold).2

/-- Lines 58-64, `refine_registration(...)`: prints an info line, then
returns the library's point-to-plane ICP result started from
`previous_transformation`. -/
def refine_registration (G : GeometryLib) (h : Heap) (source target : ℕ)
    (previous_transformation : Mat4) (distance_threshold : ℝ) :
    List Effect × RegistrationResult :=
  ([Effect.printInfo "Point-to-plane ICP registration"],
   G.registration_icp (Heap.read h source) (Heap.read h target)
     distance_threshold previous_transformation)

/-- The calibration matrices, workspace corner box and reference scan
loaded at lines 11-18 and 68. They are opaque on-disk inputs of the
module, hence parameters of its initialization. -/
structure CalibrationFiles where
  transform_base_to_cam : Mat4
  transform_cam_to_base : Mat4
  transform_base_to_reference_grasp : Mat4
  workspace_bounding_box : OrientedBoundingBox
  target_ply : PointCloud

/-- The module-level state after the import-time initialization code ran:
the loaded matrices, the bounding box, the target cloud object and its
precomputed downsampled form and descriptors, the displacement transform
of line 75, and the prototype `PoseStamped` of line 78. -/
structure ModuleState where
  transform_base_to_cam_hand_calibrated : Mat4
  transform_cam_to_base_hand_calibrated : Mat4
  transform_base_to_reference_grasp : Mat4
  workspace_bounding_box : OrientedBoundingBox
  target : ℕ
  target_down : ℕ
  target_fpfh : Feature
  init_transformation_for_global_registration : Mat4
  pose_msg : PoseStamped

/-- Lines 11-19 and 67-78, the import-time initialization: load the
calibration inputs, read the target cloud, transform it into the robot
frame and paint it (both in place), preprocess it once, set the
displacement transform to a copy of the base-to-camera matrix
(`.copy()` is a value copy), and default-construct the prototype pose
message. -/
def module_init (G : GeometryLib) (files : CalibrationFiles) :
    Heap × ModuleState :=
  let a := Heap.alloc [] files.target_ply
  let h1 := a.1
  let target := a.2
  let h2 := Heap.write h1 target
    (transformCloud files.transform_cam_to_base (Heap.read h1 target))
  let h3 := Heap.write h2 target
    (paintUniformColor ![0.6, 0.6, 0.6] (Heap.read h2 target))
  let pre := preprocess_point_cloud G h3 target VOXEL_SIZE RADIUS_NORMAL RADIUS_FEATURE
  (pre.1,
   { transform_base_to_cam_hand_calibrated := files.transform_base_to_cam
     transform_cam_to_base_hand_calibrated := files.transform_cam_to_base
     transform_base_to_reference_grasp := files.transform_base_to_reference_grasp
     workspace_bounding_box := files.workspace_bounding_box
     target := target
     target_down := pre.2.1
     target_fpfh := pre.2.2
     init_transformation_for_global_registration := files.transform_base_to_cam
     pose_msg := poseStampedDefault })

/-- Lines 83-88 of `get_target_grasp_pose`: deep-copy the caller's cloud,
paint it blue and transform it into the robot frame (both in place on the
copy), deep-copy it again into `source_pcd_to_process`, then call
`crop`. Open3D's `crop` returns the cropped cloud as a NEW object and
does not mutate its receiver; the source discards the returned value, so
the object named `source_pcd_to_process` keeps every point. Returns
(heap, `source_pcd_original`, `source_pcd_to_process`). -/
def prepare_source (ms : ModuleState) (h : Heap) (source_pcd : ℕ) :
    Heap × ℕ × ℕ :=
  let a1 := Heap.alloc h (Heap.read h source_pcd)
  let h1 := a1.1
  let source_pcd_original := a1.2
  let h2 := Heap.write h1 source_pcd_original
    (paintUniformColor ![0, 0, 1] (Heap.read h1 source_pcd_original))
  let h3 := Heap.write h2 source_pcd_original
    (transformCloud ms.transform_cam_to_base_hand_calibrated
      (Heap.read h2 source_pcd_original))
  let a2 := Heap.alloc h3 (Heap.read h3 source_pcd_original)
  let h4 := a2.1
  let source_pcd_to_process := a2.2
  let a3 := Heap.alloc h4
    (crop ms.workspace_bounding_box (Heap.read h4 source_pcd_to_process))
  (a3.1, source_pcd_original, source_pcd_to_process)

/-- Line 100: the reported source-to-target transform composes the ICP
refinement result with the initial displacement transform. -/
def transform_source_to_target_of (result_refine : RegistrationResult)
    (ms : ModuleState) : Mat4 :=
  result_refine.transformation * ms.init_transformation_for_global_registration

/-- The error numpy itself can raise in the composition step: line 104's
`np.linalg.inv` raises `numpy.linalg.LinAlgError` on a singular matrix. -/
inductive NumpyError where
  | LinAlgError

open Classical in
/-- `np.linalg.inv` (line 104): returns the inverse of an invertible
matrix and raises `numpy.linalg.LinAlgError` on an (exactly) singular
one. On the success path the returned matrix is Mathlib's `M⁻¹`, which
coincides with the true inverse whenever the determinant is nonzero. -/
def np_linalg_inv (M : Mat4) : Except NumpyError Mat4 :=
  if M.det = 0 then Except.error NumpyError.LinAlgError else Except.ok M⁻¹

/-- Lines 104-105 and 111-124, the value-level pose extraction: invert
the source-to-target transform, compose with the base-to-reference-grasp
matrix, extract the quaternion of the rotation block and the translation
column, deep-copy the prototype message and fill its pose fields. The
copy means the module-level `pose_msg` object is never written;
`header.frame_id` is never set. This extraction uses Mathlib's total
inverse, which agrees with `np.linalg.inv` wherever the inverse exists;
the raise on singular input is modelled in `np_linalg_inv` and
`compose_and_visualize` below. -/
def pose_from_transform (ms : ModuleState)
    (transform_source_to_target : Mat4) : PoseStamped :=
  let transform_target_to_source := transform_source_to_target⁻¹
  let transform_target_grasp :=
    transform_target_to_source * ms.transform_base_to_reference_grasp
  let rotation_quat := from_rotation_matrix (rotBlock transform_target_grasp)
  let translate_matrix := transVec transform_target_grasp
  let pose := ms.pose_msg
  { pose with position := translate_matrix, orientation := rotation_quat }

/-- Lines 102-124, the composition step as a unit: line 104 computes the
inverse FIRST — on singular input `np.linalg.inv` raises and the step
aborts with `LinAlgError` before any effect is emitted — and only then
come the info print (line 107), the blocking visualization window
(lines 108-109) and the pose extraction (lines 111-124). On the success
path the inverse used is the bound `M⁻¹` that `np_linalg_inv` returned,
which is exactly the inverse `pose_from_transform` recomputes. -/
def compose_and_visualize (ms : ModuleState) (T : Mat4) :
    Except NumpyError (List Effect × PoseStamped) :=
  match np_linalg_inv T with
  | Except.error e => Except.error e
  | Except.ok _ =>
      Except.ok ([Effect.printInfo "Visualizing the found grasping pose",
                  Effect.drawGeometries "Grasping pose proposal"],
                 pose_from_transform ms T)

/-- Lines 81-124, `get_target_grasp_pose(source_pcd)`: prepare and (not
effectively) crop the source copy, displace it by the initial transform
(in place), preprocess, run fast global registration then ICP refinement,
compose the reported transform, and build the output pose. Returns the
final heap, the emitted effects, and the returned `PoseStamped`. The
composition tail is modelled with the total inverse of
`pose_from_transform`: for the transforms actual registration produces
(compositions of rigid transforms) the composed matrix is invertible and
this agrees with the code; the raise of line 104 at a singular transform
is modelled in `compose_and_visualize`. -/
def get_target_grasp_pose (G : GeometryLib) (ms : ModuleState) (h : Heap)
    (source_pcd : ℕ) : Heap × List Effect × PoseStamped :=
  let prep := prepare_source ms h source_pcd
  let h5 := prep.1
  let source_pcd_to_process := prep.2.2
  let h6 := Heap.write h5 source_pcd_to_process
    (transformCloud ms.init_transformation_for_global_registration
      (Heap.read h5 source_pcd_to_process))
  let pre := preprocess_point_cloud G h6 source_pcd_to_process
    VOXEL_SIZE RADIUS_NORMAL RADIUS_FEATURE
  let h7 := pre.1
  let source_down := pre.2.1
  let source_fpfh := pre.2.2
  let fast := execute_fast_global_registration G h7 source_down ms.target_down
    source_fpfh ms.target_fpfh GLOBAL_DISTANCE_THRESHOLD
  let refine := refine_registration G h7 source_down ms.target_down
    fast.2.transformation ICP_REFINE_DISTANCE_THRESHOLD
  let transform_source_to_target := transform_source_to_target_of refine.2 ms
  (h7,
   fast.1 ++ refine.1 ++
     [Effect.printInfo "Visualizing the found grasping pose",
      Effect.drawGeometries "Grasping pose proposal"],
   pose_from_transform ms transform_source_to_target)

/-- A stand-in instantiation of the external geometry library, used only
to evaluate the repository's own control flow at concrete inputs (the
claims settled at such inputs do not depend on the library's numerics). -/
def trivialGeometryLib : GeometryLib where
  voxel_down_sample := fun _ pcd => pcd
  estimate_normals := fun _ _ pcd => pcd
  compute_fpfh_feature := fun _ _ _ => []
  registration_fast_based_on_feature_matching := fun _ _ _ _ _ => ⟨1, 0, 0⟩
  registration_icp := fun _ _ _ _ => ⟨1, 0, 0⟩

/-- A unit-oriented workspace box centered at the origin with full extent
2 on each axis (a concrete instantiation of the opaque calibration box). -/
def boxUnit : OrientedBoundingBox :=
  { R := 1, center := ![0, 0, 0], extent := ![2, 2, 2] }

/-- A point far outside `boxUnit`. -/
def pFar : Vec3 := ![10, 10, 10]

/-- A source cloud holding the single far point. -/
def heapFar : Heap := [[{ pos := pFar, normal := none, color := none }]]

/-- Concrete module state with identity calibration matrices and the unit
workspace box (the on-disk calibration values are opaque inputs). -/
def msFar : ModuleState :=
  { transform_base_to_cam_hand_calibrated := 1
    transform_cam_to_base_hand_calibrated := 1
    transform_base_to_reference_grasp := 1
    workspace_bounding_box := boxUnit
    target := 0
    target_down := 0
    target_fpfh := []
    init_transformation_for_global_registration := 1
    pose_msg := poseStampedDefault }

/-- Concrete calibration inputs with identity matrices, the unit box and
an empty reference scan. -/
def filesFar : CalibrationFiles :=
  { transform_base_to_cam := 1
    transform_cam_to_base := 1
    transform_base_to_reference_grasp := 1
    workspace_bounding_box := boxUnit
    target_ply := [] }

/-- A heap holding one empty cloud (a cloud below any minimum size). -/
def heapEmptyCloud : Heap := [[]]

/-- A heap holding two empty clouds (source and target with no points,
hence no feature correspondences at all). -/
def heapTwoEmpty : Heap := [[], []]

/-- The rotation by -90 degrees about the x axis: a proper orthonormal
rotation block whose extracted quaternion has a negative scalar part. -/
def RxNeg90 : Mat3 := !![1, 0, 0; 0, 0, 1; 0, -1, 0]

/-- A concrete registration result with the identity transformation. -/
def rrExample : RegistrationResult := ⟨1, 0, 0⟩

/-- An invertible homogeneous matrix (determinant 8) whose rotation block
`diag(2, 2, 2)` is not orthonormal: at this input `np.linalg.inv`
succeeds, so the composition step runs to completion. -/
def TDiag2 : Mat4 := Matrix.diagonal ![2, 2, 2, 1]

/-- A concrete probe point. -/
def pExample : Vec3 := ![1, 2, 3]

/-! ### Helper lemmas -/

/-- Reading below the old length is unaffected by an allocation. -/
theorem Heap.read_append_lt (h : Heap) (v : PointCloud) (r : ℕ)
    (hr : r < h.length) : Heap.read (h ++ [v]) r = Heap.read h r := by
  simp [Heap.read, List.getD_eq_getElem?_getD, List.getElem?_append, hr]

/-- Reading elsewhere is unaffected by a write. -/
theorem Heap.read_write_ne (h : Heap) (w : ℕ) (v : PointCloud) (r : ℕ)
    (hne : r ≠ w) : Heap.read (Heap.write h w v) r = Heap.read h r := by
  simp [Heap.read, Heap.write, List.getD_eq_getElem?_getD,
    List.getElem?_set_ne (Ne.symm hne)]

/-- Writes preserve the heap's size. -/
theorem Heap.length_write (h : Heap) (w : ℕ) (v : PointCloud) :
    (Heap.write h w v).length = h.length := List.length_set h w v

/-- The identity matrix acts trivially on positions. -/
theorem applyAffine_one (p : Vec3) : applyAffine 1 p = p := by
  funext i
  fin_cases i <;> simp [applyAffine, Matrix.one_apply]

/-- The identity matrix acts trivially on normals. -/
theorem applyLinear_one (n : Vec3) : applyLinear 1 n = n := by
  funext i
  fin_cases i <;> simp [applyLinear, Matrix.one_apply]

/-- The identity matrix transforms a point to itself. -/
theorem transformPoint_one (pt : Point) : transformPoint 1 pt = pt := by
  cases pt with
  | mk pos normal color =>
      cases normal <;> simp [transformPoint, applyAffine_one, applyLinear_one]

/-- The identity matrix transforms a cloud to itself. -/
theorem transformCloud_one (pcd : PointCloud) : transformCloud 1 pcd = pcd := by
  unfold transformCloud
  induction pcd with
  | nil => rfl
  | cons pt rest ih => simp only [List.map_cons, transformPoint_one, ih]

/-- Preprocessing writes only at its freshly allocated downsample object:
every pre-existing object keeps its value. -/
theorem preprocess_preserves (G : GeometryLib) (h : Heap) (pcd : ℕ)
    (v rn rf : ℝ) (r : ℕ) (hr : r < h.length) :
    Heap.read (preprocess_point_cloud G h pcd v rn rf).1 r = Heap.read h r := by
  simp only [preprocess_point_cloud, Heap.alloc]
  rw [Heap.read_write_ne _ _ _ _ (by omega), Heap.read_append_lt _ _ _ hr]

/-- The references returned by `prepare_source` and the size of its heap:
the processed copy sits at index `h.length + 1` and three objects were
allocated. -/
theorem prepare_source_refs (ms : ModuleState) (h : Heap) (src : ℕ) :
    (prepare_source ms h src).2.2 = h.length + 1 ∧
    (prepare_source ms h src).1.length = h.length + 3 := by
  simp [prepare_source, Heap.alloc, Heap.write]

/-- The lines 83-88 write only at the two freshly copied objects: every
pre-existing object keeps its value. -/
theorem prepare_source_preserves (ms : ModuleState) (h : Heap) (src r : ℕ)
    (hr : r < h.length) :
    Heap.read (prepare_source ms h src).1 r = Heap.read h r := by
  simp only [prepare_source, Heap.alloc]
  rw [Heap.read_append_lt _ _ _ (by simp [Heap.write]; omega),
    Heap.read_append_lt _ _ _ (by simp [Heap.write]; omega),
    Heap.read_write_ne _ _ _ _ (by omega),
    Heap.read_write_ne _ _ _ _ (by omega),
    Heap.read_append_lt _ _ _ hr]

/-- Whatever the branch, the un-normalized Shepperd quaternion is never
the zero vector: the selected pivot component cannot vanish under its own
branch condition, for ANY real 3x3 matrix. -/
theorem fromRotationMatrixPre_normSq_pos (R : Mat3) :
    0 < (fromRotationMatrixPre R).normSq := by
  simp only [fromRotationMatrixPre]
  split_ifs with h1 h2 h3
  · obtain ⟨g1, g2, g3⟩ := h1
    have hp : 1 + R 0 0 - R 1 1 - R 2 2 ≠ 0 := by intro h0; linarith
    simp only [Quat.normSq]
    nlinarith [sq_nonneg (R 2 1 - R 1 2), sq_nonneg (R 0 1 + R 1 0),
      sq_nonneg (R 0 2 + R 2 0), pow_two_pos_of_ne_zero hp]
  · obtain ⟨g1, g2⟩ := h2
    have hd : R 0 0 < R 1 1 := by
      by_contra hge
      push_neg at hge
      exact h1 ⟨hge, le_trans g1 hge, le_trans g2 hge⟩
    have hp : 1 + R 1 1 - R 0 0 - R 2 2 ≠ 0 := by intro h0; linarith
    simp only [Quat.normSq]
    nlinarith [sq_nonneg (R 0 2 - R 2 0), sq_nonneg (R 1 0 + R 0 1),
      sq_nonneg (R 1 2 + R 2 1), pow_two_pos_of_ne_zero hp]
  · have hd1 : R 1 1 < R 2 2 := by
      by_contra hge
      push_neg at hge
      exact h2 ⟨hge, le_trans h3 hge⟩
    have hd0 : R 0 0 < R 2 2 := by
      by_contra hge
      push_neg at hge
      exact h1 ⟨le_trans (le_of_lt hd1) hge, hge, le_trans h3 hge⟩
    have hp : 1 + R 2 2 - R 0 0 - R 1 1 ≠ 0 := by intro h0; linarith
    simp only [Quat.normSq]
    nlinarith [sq_nonneg (R 1 0 - R 0 1), sq_nonneg (R 2 0 + R 0 2),
      sq_nonneg (R 2 1 + R 1 2), pow_two_pos_of_ne_zero hp]
  · push_neg at h3
    have hd1 : R 1 1 < R 0 0 + R 1 1 + R 2 2 := by
      by_contra hge
      push_neg at hge
      exact h2 ⟨le_of_lt (lt_of_lt_of_le h3 hge), hge⟩
    have hd0 : R 0 0 < R 0 0 + R 1 1 + R 2 2 := by
      by_contra hge
      push_neg at hge
      exact h1 ⟨le_of_lt (lt_of_lt_of_le hd1 hge),
        le_of_lt (lt_of_lt_of_le h3 hge), hge⟩
    have hp : (0 : ℝ) < 1 + (R 0 0 + R 1 1 + R 2 2) := by linarith
    simp only [Quat.normSq]
    nlinarith [sq_nonneg (R 2 1 - R 1 2), sq_nonneg (R 0 2 - R 2 0),
      sq_nonneg (R 1 0 - R 0 1), pow_pos hp 2]

/-- The normalized quaternion returned by the extraction always has unit
norm (its pre-normalization vector is never zero). -/
theorem from_rotation_matrix_normSq_eq_one (R : Mat3) :
    (from_rotation_matrix R).normSq = 1 := by
  have hS := fromRotationMatrixPre_normSq_pos R
  have hn : 0 < Real.sqrt (fromRotationMatrixPre R).normSq := Real.sqrt_pos.mpr hS
  simp only [from_rotation_matrix, Quat.normSq] at hS hn ⊢
  rw [div_pow, div_pow, div_pow, div_pow, div_add_div_same, div_add_div_same,
    div_add_div_same, Real.sq_sqrt (le_of_lt hS)]
  exact div_self (ne_of_gt hS)

/-- The far point lies outside the unit workspace box. -/
theorem pFar_not_inBox : ¬ inBox boxUnit pFar := by
  intro hin
  have h0 := hin 0
  simp [inBox, boxUnit, pFar, Matrix.one_apply] at h0

/-! ### Claim theorems -/

/-- C1: the source calls `source_pcd_to_process.crop(workspace_bounding_box)`
and discards the returned value; Open3D's `crop` returns the cropped cloud
as a new object, so the cloud passed on to preprocessing keeps every point.
At a concrete source cloud holding one point far outside the workspace box
(identity calibration), the object passed on after the crop step still
holds that point, while the discarded crop result had removed it. -/
theorem crop_step_discards_crop_result :
    (¬ inBox boxUnit pFar) ∧
    Heap.read (prepare_source msFar heapFar 0).1
        (prepare_source msFar heapFar 0).2.2 =
      [{ pos := pFar, normal := none, color := some ![0, 0, 1] }] ∧
    crop boxUnit [{ pos := pFar, normal := none, color := some ![0, 0, 1] }] = [] := by
  refine ⟨pFar_not_inBox, ?_, ?_⟩
  · simp [prepare_source, Heap.alloc, Heap.write, Heap.read, msFar, heapFar,
      transformCloud_one, paintUniformColor, List.getD]
  · simp [crop, pFar_not_inBox]

/-- C2: the pose is built from the grasp matrix
`inverse(transform_source_to_target) * base_to_reference_grasp` (lines
104-105): its position is that matrix's translation column and its
orientation the quaternion of that matrix's rotation block; when the
source-to-target transform is the identity, the output position and
quaternion are exactly those extracted from `base_to_reference_grasp`. -/
theorem pose_composition_inverse_times_reference (ms : ModuleState) (T : Mat4) :
    (pose_from_transform ms T).position =
      transVec (T⁻¹ * ms.transform_base_to_reference_grasp) ∧
    (pose_from_transform ms T).orientation =
      from_rotation_matrix (rotBlock (T⁻¹ * ms.transform_base_to_reference_grasp)) ∧
    (pose_from_transform ms 1).position =
      transVec ms.transform_base_to_reference_grasp ∧
    (pose_from_transform ms 1).orientation =
      from_rotation_matrix (rotBlock ms.transform_base_to_reference_grasp) := by
  refine ⟨rfl, rfl, ?_, ?_⟩ <;> simp [pose_from_transform, inv_one]

/-- C3 counterexample: at a concrete run of the pipeline the returned
pose's frame identifier is the empty string — the source never assigns
`header.frame_id`, so the pose is not tagged with the robot base frame. -/
theorem returned_pose_frame_untagged :
    (get_target_grasp_pose trivialGeometryLib msFar heapFar 0).2.2.frame_id = "" := rfl

/-- C3 amended: the returned pose's frame identifier always equals the
prototype message's one, and the module initialization default-constructs
that prototype, leaving its frame identifier the empty string. -/
theorem frame_id_defaults_empty :
    (∀ (G : GeometryLib) (ms : ModuleState) (h : Heap) (src : ℕ),
      (get_target_grasp_pose G ms h src).2.2.frame_id = ms.pose_msg.frame_id) ∧
    ∀ (G : GeometryLib) (files : CalibrationFiles),
      (module_init G files).2.pose_msg.frame_id = "" :=
  ⟨fun _ _ _ _ => rfl, fun _ _ => rfl⟩

/-- C4 counterexample: the rotation by -90 degrees about the x axis is a
proper orthonormal rotation block, yet the extracted quaternion's scalar
component is negative — the extraction follows numpy-quaternion's branch
choice, not a non-negative-scalar convention, and the source documents no
tie-break. -/
theorem quat_scalar_negative_on_rotation :
    orthonormal RxNeg90 ∧ (from_rotation_matrix RxNeg90).w < 0 := by
  constructor
  · show RxNeg90.transpose * RxNeg90 = 1
    ext i j
    fin_cases i <;> fin_cases j <;>
      simp [RxNeg90, Matrix.mul_apply, Fin.sum_univ_three, Matrix.transpose_apply,
        Matrix.one_apply, Matrix.vecHead, Matrix.vecTail]
  · have hcond : RxNeg90 0 0 ≥ RxNeg90 1 1 ∧ RxNeg90 0 0 ≥ RxNeg90 2 2 ∧
        RxNeg90 0 0 ≥ RxNeg90 0 0 + RxNeg90 1 1 + RxNeg90 2 2 := by
      norm_num [RxNeg90]
    simp only [from_rotation_matrix, fromRotationMatrixPre]
    rw [if_pos hcond]
    norm_num [RxNeg90, Quat.normSq, Matrix.vecHead, Matrix.vecTail]
    exact div_neg_of_neg_of_pos (by norm_num) (Real.sqrt_pos.mpr (by norm_num))

/-- C4 amended: the quaternion placed in the output pose is always a unit
quaternion (the extraction is a deterministic function of the rotation
block), but no non-negative-scalar normalization is applied. -/
theorem quat_from_rotation_unit_norm (ms : ModuleState) (T : Mat4) :
    Quat.normSq ((pose_from_transform ms T).orientation) = 1 :=
  from_rotation_matrix_normSq_eq_one _

/-- C5 counterexample: on an empty input cloud (below any minimum size
needed for normal estimation) preprocessing does not fail with
`InsufficientPoints`; the source performs no size validation at all. -/
theorem preprocess_no_insufficient_points_error :
    preprocess_point_cloud_checked trivialGeometryLib heapEmptyCloud 0
        VOXEL_SIZE RADIUS_NORMAL RADIUS_FEATURE ≠
      Except.error RegError.InsufficientPoints := by
  simp [preprocess_point_cloud_checked]

/-- C5 amended: preprocessing always succeeds, returning the library's
derived data for every input cloud, with the downsampled cloud freshly
allocated. -/
theorem preprocess_always_ok (G : GeometryLib) (h : Heap) (pcd : ℕ)
    (v rn rf : ℝ) :
    preprocess_point_cloud_checked G h pcd v rn rf =
      Except.ok ((preprocess_point_cloud G h pcd v rn rf).2) ∧
    (preprocess_point_cloud G h pcd v rn rf).2.1 = h.length :=
  ⟨rfl, by simp [preprocess_point_cloud, Heap.alloc]⟩

/-- C6 counterexample: with empty source and target descriptor sets (so
fewer than three feature matches exist under any matching policy) the
coarse alignment does not fail with `InsufficientCorrespondences`; the
source performs no correspondence-count validation at all. -/
theorem global_registration_no_correspondence_error :
    execute_fast_global_registration_checked trivialGeometryLib heapTwoEmpty
        0 1 [] [] GLOBAL_DISTANCE_THRESHOLD ≠
      Except.error RegError.InsufficientCorrespondences := by
  simp [execute_fast_global_registration_checked]

/-- C6 amended: the coarse alignment always succeeds, returning exactly
the library's fast-global-registration result after printing its info
line. -/
theorem global_registration_always_ok (G : GeometryLib) (h : Heap)
    (sd td : ℕ) (sf tf : Feature) (d : ℝ) :
    execute_fast_global_registration_checked G h sd td sf tf d =
      Except.ok (G.registration_fast_based_on_feature_matching
        (Heap.read h sd) (Heap.read h td) sf tf d) ∧
    (execute_fast_global_registration G h sd td sf tf d).1 =
      [Effect.printInfo "Fast global registration with fpfh features"] :=
  ⟨rfl, rfl⟩

/-- C7 counterexample: at the invertible transform `TDiag2`, whose
rotation block `diag(2, 2, 2)` is not orthonormal, the composition step
does NOT fail — it emits its print/visualization side effects and
returns a pose — contradicting "fails iff the rotation block is not
orthonormal, raising InvalidTransform" and "no side effects"; and when
the step does fail (singular input) the error is numpy's `LinAlgError`
raised at line 104, not `InvalidTransform`. -/
theorem compose_succeeds_on_nonorthonormal :
    ¬ orthonormal (rotBlock TDiag2) ∧
    compose_and_visualize msFar TDiag2 =
      Except.ok ([Effect.printInfo "Visualizing the found grasping pose",
                  Effect.drawGeometries "Grasping pose proposal"],
                 pose_from_transform msFar TDiag2) ∧
    compose_and_visualize msFar 0 = Except.error NumpyError.LinAlgError := by
  refine ⟨?_, ?_, ?_⟩
  · intro hcontra
    have h00 := congrFun (congrFun hcontra 0) 0
    simp [rotBlock, TDiag2, Matrix.mul_apply, Fin.sum_univ_three,
      Matrix.transpose_apply, Matrix.one_apply, Matrix.diagonal,
      Matrix.vecHead, Matrix.vecTail] at h00
    norm_num at h00
  · have hdet : Matrix.det TDiag2 ≠ 0 := by
      simp [TDiag2, Matrix.det_diagonal, Fin.prod_univ_four]
    simp [compose_and_visualize, np_linalg_inv, hdet]
  · have hdet : Matrix.det (0 : Mat4) = 0 := by simp
    simp [compose_and_visualize, np_linalg_inv, hdet]

/-- C7 amended: the composition step fails exactly on a singular input
transform — with numpy's `LinAlgError`, raised by line 104 before any
effect is emitted — and on every invertible transform, orthonormal
rotation block or not, it succeeds, emitting the print and visualization
side effects and returning a pose whose quaternion is nevertheless always
unit (no `InvalidTransform` check exists anywhere). -/
theorem compose_fails_only_on_singular (ms : ModuleState) (T : Mat4) :
    (Matrix.det T = 0 →
      compose_and_visualize ms T = Except.error NumpyError.LinAlgError) ∧
    (Matrix.det T ≠ 0 →
      compose_and_visualize ms T =
        Except.ok ([Effect.printInfo "Visualizing the found grasping pose",
                    Effect.drawGeometries "Grasping pose proposal"],
                   pose_from_transform ms T)) ∧
    Quat.normSq ((pose_from_transform ms T).orientation) = 1 := by
  refine ⟨fun hdet => ?_, fun hdet => ?_, from_rotation_matrix_normSq_eq_one _⟩
  · simp [compose_and_visualize, np_linalg_inv, hdet]
  · simp [compose_and_visualize, np_linalg_inv, hdet]

/-- C7 witness: the success case applied at the invertible `TDiag2` and
the failure case at the singular zero matrix. -/
theorem compose_fails_only_on_singular_witness :
    (Matrix.det TDiag2 ≠ 0 ∧
     compose_and_visualize msFar TDiag2 =
       Except.ok ([Effect.printInfo "Visualizing the found grasping pose",
                   Effect.drawGeometries "Grasping pose proposal"],
                  pose_from_transform msFar TDiag2)) ∧
    (Matrix.det (0 : Mat4) = 0 ∧
     compose_and_visualize msFar 0 = Except.error NumpyError.LinAlgError) := by
  have hdet : Matrix.det TDiag2 ≠ 0 := by
    simp [TDiag2, Matrix.det_diagonal, Fin.prod_univ_four]
  have hdet0 : Matrix.det (0 : Mat4) = 0 := by simp
  exact ⟨⟨hdet, (compose_fails_only_on_singular msFar TDiag2).2.1 hdet⟩,
         ⟨hdet0, (compose_fails_only_on_singular msFar 0).1 hdet0⟩⟩

/-- C8: a registration call never writes any pre-existing heap object —
in particular the module-level target cloud and its downsampled form keep
their values across every call (the call's writes hit only its own fresh
copies), and the calibration matrices, descriptors and prototype message
live in the immutable `ModuleState` value the call only reads. -/
theorem call_preserves_global_state (G : GeometryLib) (ms : ModuleState)
    (h : Heap) (src r : ℕ) (hr : r < h.length) :
    Heap.read (get_target_grasp_pose G ms h src).1 r = Heap.read h r := by
  have hrefs := prepare_source_refs ms h src
  simp only [get_target_grasp_pose]
  rw [preprocess_preserves]
  · rw [Heap.read_write_ne]
    · exact prepare_source_preserves ms h src r hr
    · rw [hrefs.1]
      omega
  · rw [Heap.length_write, hrefs.2]
    omega

/-- C8 witness: the preservation theorem applied at a concrete heap. -/
theorem call_preserves_global_state_witness :
    0 < List.length heapFar ∧
    Heap.read (get_target_grasp_pose trivialGeometryLib msFar heapFar 0).1 0 =
      Heap.read heapFar 0 :=
  ⟨by decide,
   call_preserves_global_state trivialGeometryLib msFar heapFar 0 0 (by decide)⟩

/-- C9: preprocessing leaves the input cloud object — its points, normals
and colors — exactly as it was, and returns a freshly allocated
downsampled cloud (allocated at the old end of the heap, hence distinct
from the input object). -/
theorem preprocess_input_cloud_unchanged (G : GeometryLib) (h : Heap)
    (pcd : ℕ) (v rn rf : ℝ) (hp : pcd < h.length) :
    Heap.read (preprocess_point_cloud G h pcd v rn rf).1 pcd = Heap.read h pcd ∧
    (preprocess_point_cloud G h pcd v rn rf).2.1 = h.length :=
  ⟨preprocess_preserves G h pcd v rn rf pcd hp,
   by simp [preprocess_point_cloud, Heap.alloc]⟩

/-- C9 witness: the preservation theorem applied at a concrete heap. -/
theorem preprocess_input_cloud_unchanged_witness :
    0 < List.length heapFar ∧
    (Heap.read (preprocess_point_cloud trivialGeometryLib heapFar 0
          VOXEL_SIZE RADIUS_NORMAL RADIUS_FEATURE).1 0 = Heap.read heapFar 0 ∧
     (preprocess_point_cloud trivialGeometryLib heapFar 0
          VOXEL_SIZE RADIUS_NORMAL RADIUS_FEATURE).2.1 = List.length heapFar) :=
  ⟨by decide,
   preprocess_input_cloud_unchanged trivialGeometryLib heapFar 0
     VOXEL_SIZE RADIUS_NORMAL RADIUS_FEATURE (by decide)⟩

/-- C10: the displacement transform installed at initialization is the
(value copy of the) base-to-camera calibration matrix; the reported
source-to-target transform is the ICP refinement matrix multiplied by
that displacement; and for an affine displacement the reported transform
acts on a point by first displacing it and then applying the refinement —
it maps the pre-displacement base-frame coordinates to the target. -/
theorem reported_transform_includes_displacement (G : GeometryLib)
    (files : CalibrationFiles) (rr : RegistrationResult) (ms : ModuleState)
    (p : Vec3) :
    (module_init G files).2.init_transformation_for_global_registration =
      files.transform_base_to_cam ∧
    transform_source_to_target_of rr ms =
      rr.transformation * ms.init_transformation_for_global_registration ∧
    (isAffineTransform ms.init_transformation_for_global_registration →
      applyAffine (transform_source_to_target_of rr ms) p =
        applyAffine rr.transformation
          (applyAffine ms.init_transformation_for_global_registration p)) := by
  refine ⟨rfl, rfl, fun hAff => ?_⟩
  obtain ⟨h0, h1, h2, h3⟩ := hAff
  funext i
  fin_cases i <;>
    simp [applyAffine, transform_source_to_target_of, Matrix.mul_apply,
      Fin.sum_univ_four, Matrix.cons_val_zero, Matrix.cons_val_zero',
      Matrix.cons_val_one, Matrix.cons_val_two, Matrix.cons_val_succ',
      Matrix.head_cons, Matrix.vecHead, Matrix.vecTail, h0, h1, h2, h3] <;>
    ring

/-- C10 witness: the composition-action theorem applied at a concrete
affine displacement. -/
theorem reported_transform_includes_displacement_witness :
    isAffineTransform msFar.init_transformation_for_global_registration ∧
    applyAffine (transform_source_to_target_of rrExample msFar) pExample =
      applyAffine rrExample.transformation
        (applyAffine msFar.init_transformation_for_global_registration pExample) := by
  have hAff : isAffineTransform msFar.init_transformation_for_global_registration := by
    refine ⟨?_, ?_, ?_, ?_⟩ <;> simp [msFar, Matrix.one_apply]
  exact ⟨hAff, (reported_transform_includes_displacement trivialGeometryLib
    filesFar rrExample msFar pExample).2.2 hAff⟩

end

end PcdRegistration
